import Mathlib

/-!
# Verification of the housing-price-prediction MLOps pipeline

Shallow embedding of the repository's Python sources:

* `src/scripts/etl_pipeline.py`   — `run_etl`: column selection, median
  imputation, feature engineering, two-stage train/val/test split;
* `src/scripts/train_new_experiment.py` — `main`: environment-variable
  handling and the two-run training driver with its artifact-URI check;
* `src/bentoml/service.py`        — `HousingPredictor.predict`: alias
  resolution, feature-completeness validation, structured error results.

Records and feature-name→value mappings are embedded as partial maps
`String → Option ℚ` (a missing key / a pandas `NaN` cell is `none`);
arithmetic on possibly-missing cells uses `Option.bind`, which mirrors
NaN propagation.  Library calls whose semantics the scripts rely on
(`sklearn.model_selection.train_test_split`, `pandas` median / `fillna`)
are embedded from those libraries' documented behaviour, with the
pseudo-random permutation drawn by `train_test_split` kept as an explicit
parameter constrained to be a permutation of the row indices.
-/

namespace Housing

/-- A cell value: a rational number, or `none` for a missing value (NaN). -/
abbrev Cell := Option ℚ

/-- A record / row, and equally a request mapping: a partial map from
column name to value.  `none` means the column is absent (or NaN). -/
abbrev Record := String → Cell

/-! ## `src/scripts/etl_pipeline.py` — feature selection -/

/-- The `selected_features` list of `run_etl` (21 columns). -/
def selected_features : List String :=
  ["LotArea", "OverallQual", "OverallCond", "YearBuilt", "YearRemodAdd",
   "TotalBsmtSF", "1stFlrSF", "2ndFlrSF", "GrLivArea",
   "FullBath", "HalfBath", "BedroomAbvGr", "TotRmsAbvGrd",
   "Fireplaces", "GarageCars", "GarageArea", "WoodDeckSF",
   "OpenPorchSF", "PoolArea", "YrSold", "MoSold"]

/-- Columns of `df_selected` right after `df[selected_features + ['SalePrice']]`. -/
def selectedColumns : List String := selected_features ++ ["SalePrice"]

/-- The five columns created in step 5 (feature engineering), in
assignment order. -/
def derivedColumns : List String :=
  ["HouseAge", "RemodAge", "TotalSF", "TotalBath", "PricePerSqFt"]

/-- Columns of the enriched dataset produced by `run_etl`:
the selected columns, the target, then the five derived columns. -/
def etlOutputColumns : List String := selectedColumns ++ derivedColumns

/-- `df[selected_features + ['SalePrice']]`: restrict a raw record to the
selected columns plus the target; every other column is dropped. -/
def selectRecord (r : Record) : Record := fun c =>
  if c ∈ selectedColumns then r c else none

/-! ## `src/scripts/etl_pipeline.py` — median imputation (step 4)

`df_selected[col].fillna(df_selected[col].median())`, applied to every
selected column that contains a missing value.  The pandas median of a
column sorts the non-missing values and returns the middle one (odd
count) or the mean of the two middle ones (even count); the median of a
column with no non-missing value is NaN, i.e. `none`. -/

/-- pandas `Series.median` over the non-missing values of a column. -/
def medianOf (l : List ℚ) : Option ℚ :=
  let s := l.insertionSort (· ≤ ·)
  let n := l.length
  if n = 0 then none
  else if n % 2 = 1 then some (s.getD (n / 2) 0)
  else some ((s.getD (n / 2 - 1) 0 + s.getD (n / 2) 0) / 2)

/-- The non-missing values of one column of a dataset. -/
def columnValues (ds : List Record) (c : String) : List ℚ :=
  ds.filterMap fun r => r c

/-- One column of a dataset, missing entries included. -/
def columnOf (ds : List Record) (c : String) : List Cell :=
  ds.map fun r => r c

/-- Imputation of one cell of column `c` by the loop
`for col in df_selected.columns: if df_selected[col].isnull().sum() > 0:
df_selected[col].fillna(df_selected[col].median(), inplace=True)`,
with the median taken over the whole currently loaded (selected) dataset
`ds`.  Only the selected columns exist in `df_selected`, so only they
are imputed; the `isnull().sum() > 0` guard of the loop is implied at a
missing cell, and filling with a NaN median (a column with no present
value) leaves the cell missing. -/
def imputeCell (ds : List Record) (c : String) (x : Cell) : Cell :=
  match x with
  | some v => some v
  | none => if c ∈ selectedColumns then medianOf (columnValues ds c) else none

/-- Step 4 of `run_etl` on the whole selected dataset. -/
def imputeDataset (ds : List Record) : List Record :=
  ds.map fun r => fun c => imputeCell ds c (r c)

/-! ## `src/scripts/etl_pipeline.py` — feature engineering (step 5)

The five assignments
```
df_selected['HouseAge']     = df_selected['YrSold'] - df_selected['YearBuilt']
df_selected['RemodAge']     = df_selected['YrSold'] - df_selected['YearRemodAdd']
df_selected['TotalSF']      = df_selected['TotalBsmtSF'] + df_selected['1stFlrSF'] + df_selected['2ndFlrSF']
df_selected['TotalBath']    = df_selected['FullBath'] + 0.5 * df_selected['HalfBath']
df_selected['PricePerSqFt'] = df_selected['SalePrice'] / df_selected['GrLivArea']
```
`Option.bind` mirrors pandas NaN propagation in the arithmetic. -/

/-- Step 5 of `run_etl` on one record. -/
def engineerRecord (r : Record) : Record := fun c =>
  if c = "HouseAge" then
    (r "YrSold").bind fun a => (r "YearBuilt").map fun b => a - b
  else if c = "RemodAge" then
    (r "YrSold").bind fun a => (r "YearRemodAdd").map fun b => a - b
  else if c = "TotalSF" then
    (r "TotalBsmtSF").bind fun a =>
      (r "1stFlrSF").bind fun b => (r "2ndFlrSF").map fun d => a + b + d
  else if c = "TotalBath" then
    (r "FullBath").bind fun a => (r "HalfBath").map fun b => a + (1 / 2) * b
  else if c = "PricePerSqFt" then
    (r "SalePrice").bind fun a => (r "GrLivArea").map fun b => a / b
  else r c

/-- Steps 3–5 of `run_etl`: selection, imputation, feature engineering,
producing the enriched dataset that is then split and saved. -/
def etlTransform (ds : List Record) : List Record :=
  (imputeDataset (ds.map selectRecord)).map engineerRecord

/-! ## `src/scripts/etl_pipeline.py` — the two-stage split (step 6)

```
train_val_df, test_df = train_test_split(df_selected, test_size=0.2, random_state=42)
train_df, val_df = train_test_split(train_val_df, test_size=0.25, random_state=42)
```
`sklearn.model_selection.train_test_split` with a fractional
`test_size` draws `n_test = ceil(test_size * n)`; it shuffles
`permutation(n)` with the given seed and takes the first `n_test`
entries as the test part and the remaining `n - n_test` as the train
part.  The pseudo-random permutation is kept as an explicit parameter
(the seed is fixed, so it is a pure function of seed and length),
constrained in the theorems to be a permutation of `range n`. -/

/-- `ceil(0.2 * n)`: size of the test part of the first split, written
as the equivalent integer ceiling division (`nTestCount_eq_ceil`). -/
def nTestCount (n : ℕ) : ℕ := (n + 4) / 5

/-- `ceil(0.25 * m)`: size of the validation part of the second split,
out of the `m` remaining rows (`nValCount_eq_ceil`). -/
def nValCount (m : ℕ) : ℕ := (m + 3) / 4

/-- Result of the two-stage split, as lists of row indices into the
enriched dataset. -/
structure SplitIdx where
  train : List ℕ
  val : List ℕ
  test : List ℕ
deriving DecidableEq, Repr

/-- The two-stage split of step 6 at the level of row indices.
`perm1` is the shuffle of the first `train_test_split` (over all `n`
rows), `perm2` the shuffle of the second (over the `n - nTestCount n`
rows that remain); positions drawn by `perm2` are translated back to
original row indices through the remainder of the first split. -/
def splitIndices (perm1 perm2 : List ℕ) (n : ℕ) : SplitIdx :=
  let t := nTestCount n
  let testIdx := perm1.take t
  let restIdx := perm1.drop t
  let v := nValCount (n - t)
  let valIdx := (perm2.take v).map fun i => restIdx.getD i 0
  let trainIdx := (perm2.drop v).map fun i => restIdx.getD i 0
  ⟨trainIdx, valIdx, testIdx⟩

/-- Step 6 of `run_etl` on a dataset: both `train_test_split` calls pass
the fixed seed `random_state=42`, so each shuffle is the generator
applied to `42` and the row count — nothing else. -/
def runEtlSplit (permGen : ℕ → ℕ → List ℕ) (ds : List Record) : SplitIdx :=
  splitIndices (permGen 42 ds.length) (permGen 42 (ds.length - nTestCount ds.length))
    ds.length

/-! ## `src/bentoml/service.py` — the serving-side feature schema -/

/-- `EXPECTED_FEATURES` of `service.py` (training-order feature schema). -/
def EXPECTED_FEATURES : List String :=
  ["LotArea", "OverallQual", "OverallCond", "YearBuilt", "YearRemodAdd",
   "TotalBsmtSF", "1stFlrSF", "2ndFlrSF", "GrLivArea",
   "FullBath", "HalfBath", "BedroomAbvGr", "TotRmsAbvGrd",
   "Fireplaces", "GarageCars", "GarageArea", "WoodDeckSF",
   "OpenPorchSF", "PoolArea", "YrSold", "MoSold",
   "HouseAge", "RemodAge", "TotalSF", "TotalBath", "PricePerSqFt"]

/-! ## `src/bentoml/service.py` — `HousingPredictor.predict`

Python dicts are embedded as partial maps `Record`; a key is "in" the
dict iff its cell is `some`.  `predict` works on `data =
input_data.copy()`, so dict mutation (`pop`, key assignment) is modelled
on the copied value; a heap model of the same mutations is given further
down for the frame property. -/

/-- `d.pop(k)` (effect on the dict: the key is removed). -/
def popKey (k : String) (d : Record) : Record := fun c =>
  if c = k then none else d c

/-- `d[k] = v`. -/
def setKey (k : String) (v : Cell) (d : Record) : Record := fun c =>
  if c = k then v else d c

/-- `data['1stFlrSF'] = data.pop('FirstFlrSF')`. -/
def renameFirst (d : Record) : Record :=
  popKey "FirstFlrSF" (setKey "1stFlrSF" (d "FirstFlrSF") d)

/-- `data['2ndFlrSF'] = data.pop('SecondFlrSF')`. -/
def renameSecond (d : Record) : Record :=
  popKey "SecondFlrSF" (setKey "2ndFlrSF" (d "SecondFlrSF") d)

/-- The "Handle field naming" block of `predict`: each rename is applied
only when the legacy alias key is present. -/
def resolveAliases (d : Record) : Record :=
  let d1 := if (d "FirstFlrSF").isSome then renameFirst d else d
  if (d1 "SecondFlrSF").isSome then renameSecond d1 else d1

/-- `missing = set(self.feature_names) - set(df.columns)`: the expected
features absent from the request after alias resolution.  (The Python
value is a set; here it is listed in schema order — the claims are about
its membership only.) -/
def missingFeatures (d : Record) : List String :=
  EXPECTED_FEATURES.filter fun f => (d f).isNone

/-- `f"Missing: {list(missing)}"` (Python prints the list with its own
punctuation; only the names listed matter here). -/
def missingMessage (missing : List String) : String :=
  "Missing: " ++ toString missing

/-- The response dict of `predict` / the structured error shape.
(`predicted_price_formatted`, a currency rendering of the same number,
is presentation-only and not modelled.) -/
structure ApiResponse where
  status : String
  message : Option String
  predicted_price : Option ℚ
deriving DecidableEq, Repr

/-- `HousingPredictor.predict`.  The loaded model is a parameter; its
invocation is the one operation in the `try` block that can raise, so it
returns `Except`, and `predict` converts an exception `e` into
`{"status": "error", "message": str(e)}` as the `except` clause does.
`df = df[self.feature_names]` reorders the row into schema order, which
is the `map` over `EXPECTED_FEATURES` (the `getD 0` default is never
read: the branch runs only when no feature is missing). -/
def predictService (model : List ℚ → Except String ℚ) (input : Record) : ApiResponse :=
  let data := resolveAliases input
  let missing := missingFeatures data
  if missing ≠ [] then
    { status := "error", message := some (missingMessage missing), predicted_price := none }
  else
    match model (EXPECTED_FEATURES.map fun f => (data f).getD 0) with
    | Except.ok p =>
        { status := "success", message := none, predicted_price := some p }
    | Except.error e =>
        { status := "error", message := some e, predicted_price := none }

/-- The canonical request corresponding to a legacy-alias request: the
values of `1stFlrSF` / `2ndFlrSF` moved to the alias keys `FirstFlrSF` /
`SecondFlrSF`, the canonical keys removed, all else unchanged. -/
def aliasForm (d : Record) : Record := fun c =>
  if c = "FirstFlrSF" then d "1stFlrSF"
  else if c = "SecondFlrSF" then d "2ndFlrSF"
  else if c = "1stFlrSF" then none
  else if c = "2ndFlrSF" then none
  else d c

/-! ### Heap model of the dict mutations in `predict`

Python dicts are mutable heap objects; `input_data.copy()` allocates a
fresh dict with the same entries, and the two renames mutate the dict
the local `data` refers to, in place.  A heap is a list of dict values,
a reference an index into it. -/

/-- The heap of dict objects. -/
abbrev Heap := List Record

/-- The empty dict, used as the out-of-range default. -/
def emptyDict : Record := fun _ => none

/-- `input_data.copy()`: allocate a fresh dict equal to the one at `r`. -/
def dictCopy (h : Heap) (r : ℕ) : Heap × ℕ :=
  (h ++ [h.getD r emptyDict], h.length)

/-- In-place mutation of the dict stored at reference `r`. -/
def heapUpdate (h : Heap) (r : ℕ) (f : Record → Record) : Heap :=
  h.set r (f (h.getD r emptyDict))

/-- The mutation prefix of `predict` on the heap: copy the input dict,
then apply the two conditional renames to the dict `data` refers to.
Returns the final heap and the reference held by `data`. -/
def predictPrep (h : Heap) (input : ℕ) : Heap × ℕ :=
  let h1 := (dictCopy h input).1
  let data := (dictCopy h input).2
  let h2 := if ((h1.getD data emptyDict) "FirstFlrSF").isSome then
      heapUpdate h1 data renameFirst
    else h1
  let h3 := if ((h2.getD data emptyDict) "SecondFlrSF").isSome then
      heapUpdate h2 data renameSecond
    else h2
  (h3, data)

/-! ## `src/scripts/train_new_experiment.py` — environment and driver -/

/-- A process environment: variable name → value. -/
abbrev Env := String → Option String

/-- `os.getenv(k, default)`. -/
def getenv (env : Env) (k dflt : String) : String :=
  (env k).getD dflt

/-- The registry address both scripts fall back to. -/
def defaultTrackingUri : String := "http://localhost:30000"

/-- Module top of `train_new_experiment.py`:
`os.environ["MLFLOW_TRACKING_URI"] = "http://localhost:30000"` runs
unconditionally at import, before anything reads the variable. -/
def trainerModuleInit (env : Env) : Env := fun k =>
  if k = "MLFLOW_TRACKING_URI" then some defaultTrackingUri else env k

/-- The tracking URI `main()` passes to `mlflow.set_tracking_uri`:
`os.getenv("MLFLOW_TRACKING_URI", "http://localhost:30000")`, read from
the environment as the module rewrote it. -/
def trainerTrackingUri (env : Env) : String :=
  getenv (trainerModuleInit env) "MLFLOW_TRACKING_URI" defaultTrackingUri

/-- The tracking URI `HousingPredictor.__init__` uses:
`os.getenv("MLFLOW_TRACKING_URI", "http://localhost:30000")`, read from
the process environment as supplied. -/
def serviceTrackingUri (env : Env) : String :=
  getenv env "MLFLOW_TRACKING_URI" defaultTrackingUri

/-- `uri.startswith(p)`, on the character lists of the strings (kept
elementary so that concrete instances evaluate). -/
def strStartsWith (s p : String) : Bool :=
  p.data.isPrefixOf s.data

/-- The URI scheme the baseline run's check expects. -/
def artifactScheme : String := "mlflow-artifacts:/"

/-- What `main()` does in each of its two runs. -/
structure TrainerOutcome where
  baselineFitted : Bool
  baselineLogged : Bool
  advancedFitted : Bool
  advancedLogged : Bool
  returnedEarly : Bool
deriving DecidableEq, Repr

/-- Control flow of `main()` around the artifact-URI check, as a
function of the artifact URIs the registry reports for the two runs.
Inside the baseline run, `if not artifact_uri.startswith("mlflow-artifacts:/"):
return` leaves `main` entirely, so nothing later — the baseline fit and
logging and the whole advanced run — executes; otherwise both runs fit
and log.  (The advanced run reads its own artifact URI but only prints
it, hence the second argument is not inspected.) -/
def mainRuns (baselineUri advancedUri : String) : TrainerOutcome :=
  if strStartsWith baselineUri artifactScheme then
    { baselineFitted := true, baselineLogged := true,
      advancedFitted := true, advancedLogged := true, returnedEarly := false }
  else
    { baselineFitted := false, baselineLogged := false,
      advancedFitted := false, advancedLogged := false, returnedEarly := true }

/-! # Theorems -/

/-! ## Shared lemmas -/

/-- `nTestCount` is the ceiling `⌈0.2 · n⌉` drawn by the first
`train_test_split(test_size=0.2)`. -/
theorem nTestCount_eq_ceil (n : ℕ) : nTestCount n = ⌈(0.2 : ℚ) * n⌉₊ := by
  have h02 : (0.2 : ℚ) * n = n / 5 := by ring_nf
  rw [nTestCount, h02]
  symm
  apply le_antisymm
  · rw [Nat.ceil_le, div_le_iff₀ (by norm_num : (0 : ℚ) < 5)]
    have h : n ≤ (n + 4) / 5 * 5 := by omega
    calc (n : ℚ) ≤ (((n + 4) / 5 * 5 : ℕ) : ℚ) := by exact_mod_cast h
      _ = (((n + 4) / 5 : ℕ) : ℚ) * 5 := by push_cast; ring
  · rcases Nat.eq_zero_or_pos ((n + 4) / 5) with h0 | h0
    · simp [h0]
    · have h1 : (n + 4) / 5 - 1 < ⌈(n : ℚ) / 5⌉₊ := by
        rw [Nat.lt_ceil, lt_div_iff₀ (by norm_num : (0 : ℚ) < 5)]
        have h : ((n + 4) / 5 - 1) * 5 < n := by omega
        exact_mod_cast h
      omega

/-- `nValCount` is the ceiling `⌈0.25 · m⌉` drawn by the second
`train_test_split(test_size=0.25)`. -/
theorem nValCount_eq_ceil (m : ℕ) : nValCount m = ⌈(0.25 : ℚ) * m⌉₊ := by
  have h025 : (0.25 : ℚ) * m = m / 4 := by ring_nf
  rw [nValCount, h025]
  symm
  apply le_antisymm
  · rw [Nat.ceil_le, div_le_iff₀ (by norm_num : (0 : ℚ) < 4)]
    have h : m ≤ (m + 3) / 4 * 4 := by omega
    calc (m : ℚ) ≤ (((m + 3) / 4 * 4 : ℕ) : ℚ) := by exact_mod_cast h
      _ = (((m + 3) / 4 : ℕ) : ℚ) * 4 := by push_cast; ring
  · rcases Nat.eq_zero_or_pos ((m + 3) / 4) with h0 | h0
    · simp [h0]
    · have h1 : (m + 3) / 4 - 1 < ⌈(m : ℚ) / 4⌉₊ := by
        rw [Nat.lt_ceil, lt_div_iff₀ (by norm_num : (0 : ℚ) < 4)]
        have h : ((m + 3) / 4 - 1) * 4 < m := by omega
        exact_mod_cast h
      omega

/-- Reading a list back through `getD` over `range` reproduces it. -/
theorem map_getD_range {α : Type} (d : α) (xs : List α) :
    (List.range xs.length).map (fun i => xs.getD i d) = xs := by
  induction xs with
  | nil => rfl
  | cons x xs ih =>
    simp only [List.length_cons, List.range_succ_eq_map, List.map_cons,
      List.getD_cons_zero, List.map_map]
    refine congrArg (x :: ·) ?_
    calc (List.range xs.length).map ((fun i => (x :: xs).getD i d) ∘ Nat.succ)
        = (List.range xs.length).map (fun i => xs.getD i d) := by
          refine List.map_congr_left fun a _ => ?_
          simp [Function.comp, List.getD_cons_succ]
      _ = xs := ih

/-! ## C5 — the two-stage split is a partition with the stated sizes -/

/-- **C5**: for a dataset of `N` rows, the two-stage split (80/20 by the
ceiling arithmetic of the first `train_test_split`, then 75/25 of the
remainder by the second) yields Test/Validation/Train index lists that
are pairwise disjoint (jointly without duplicates), whose union is
exactly the whole index range, with `|Test| = ⌈0.2N⌉`,
`|Val| = ⌈0.25(N − |Test|)⌉`, `|Train|` the rest; at `N = 1460` this is
Test = 292, Validation = 292, Train = 876. -/
theorem splitIndices_partition (perm1 perm2 : List ℕ) (n : ℕ)
    (h1 : perm1.Perm (List.range n))
    (h2 : perm2.Perm (List.range (n - nTestCount n))) :
    ((splitIndices perm1 perm2 n).test ++ (splitIndices perm1 perm2 n).val ++
        (splitIndices perm1 perm2 n).train).Perm (List.range n) ∧
    ((splitIndices perm1 perm2 n).test ++ (splitIndices perm1 perm2 n).val ++
        (splitIndices perm1 perm2 n).train).Nodup ∧
    (splitIndices perm1 perm2 n).test.length = nTestCount n ∧
    (splitIndices perm1 perm2 n).val.length = nValCount (n - nTestCount n) ∧
    (splitIndices perm1 perm2 n).train.length
      = n - nTestCount n - nValCount (n - nTestCount n) ∧
    nTestCount 1460 = 292 ∧ nValCount (1460 - 292) = 292 ∧
    1460 - 292 - 292 = 876 := by
  have hlen1 : perm1.length = n := by
    simpa using h1.length_eq
  have hlen2 : perm2.length = n - nTestCount n := by
    simpa using h2.length_eq
  have ht : nTestCount n ≤ n := by
    rw [nTestCount]; omega
  have hv : nValCount (n - nTestCount n) ≤ n - nTestCount n := by
    rw [nValCount]; omega
  have hrest : (perm1.drop (nTestCount n)).length = n - nTestCount n := by
    simp [hlen1]
  have hperm : ((splitIndices perm1 perm2 n).test ++ (splitIndices perm1 perm2 n).val ++
      (splitIndices perm1 perm2 n).train).Perm (List.range n) := by
    simp only [splitIndices, List.append_assoc]
    have hmap : (perm2.take (nValCount (n - nTestCount n))).map
          (fun i => (perm1.drop (nTestCount n)).getD i 0) ++
        (perm2.drop (nValCount (n - nTestCount n))).map
          (fun i => (perm1.drop (nTestCount n)).getD i 0)
        = perm2.map (fun i => (perm1.drop (nTestCount n)).getD i 0) := by
      rw [← List.map_append, List.take_append_drop]
    rw [hmap]
    have hval : (perm2.map fun i => (perm1.drop (nTestCount n)).getD i 0).Perm
        (perm1.drop (nTestCount n)) := by
      have := h2.map (fun i => (perm1.drop (nTestCount n)).getD i 0)
      refine this.trans ?_
      rw [← hrest, map_getD_range]
    have hstep : (perm1.take (nTestCount n) ++
        (perm2.map fun i => (perm1.drop (nTestCount n)).getD i 0)).Perm perm1 := by
      have hap := List.Perm.append_left (perm1.take (nTestCount n)) hval
      refine hap.trans ?_
      rw [List.take_append_drop]
    exact hstep.trans h1
  refine ⟨hperm, (hperm.symm.nodup (List.nodup_range n)), ?_, ?_, ?_, ?_, ?_, ?_⟩
  · simp [splitIndices, hlen1, ht]
  · simp [splitIndices, hlen2, hv]
  · simp [splitIndices, hlen2]
  · decide
  · decide
  · decide

/-- Witness for C5 at `n = 5` with concrete shuffles. -/
theorem splitIndices_partition_witness :
    nTestCount 1460 = 292 ∧ nValCount (1460 - 292) = 292 ∧
    1460 - 292 - 292 = 876 :=
  (splitIndices_partition [4, 0, 2, 1, 3] [2, 0, 3, 1] 5
    (by decide) (by decide)).2.2.2.2.2

/-! ## C6 — determinism of the split under the fixed seed -/

/-- **C6**: the Dataset Partitioner is deterministic.  Both
`train_test_split` calls pass the hard-coded `random_state=42`, so in
`runEtlSplit` the shuffle generator is applied to the constant seed `42`
and data derived from the dataset alone; two invocations on the same
dataset therefore produce identical row membership in all three
partitions. -/
theorem runEtlSplit_deterministic (permGen : ℕ → ℕ → List ℕ)
    (ds₁ ds₂ : List Record) (h : ds₁ = ds₂) :
    runEtlSplit permGen ds₁ = runEtlSplit permGen ds₂ := by
  rw [h]

/-- Witness for C6: two runs on the same one-record dataset agree. -/
theorem runEtlSplit_deterministic_witness :
    runEtlSplit (fun _ n => List.range n) [fun _ => some 1]
      = runEtlSplit (fun _ n => List.range n) [fun _ => some 1] :=
  runEtlSplit_deterministic (fun _ n => List.range n) _ _ rfl

/-! ## C1 — columns of the enriched dataset

The claim counts 25 declared features; the code declares 26:
`selected_features` has 21 entries (not 20), plus the 5 derived
columns, and `EXPECTED_FEATURES` in `service.py` likewise lists 26
names.  The "no residual raw columns" part is true. -/

/-- **C1 is false as stated**: the declared feature list has 26 names,
not 25, and the enriched dataset has 26 non-target columns, not 25. -/
theorem etl_feature_count_not_25 :
    EXPECTED_FEATURES.length = 26 ∧
    (etlOutputColumns.filter (fun c => c ≠ "SalePrice")).length = 26 ∧
    ¬ (etlOutputColumns.filter (fun c => c ≠ "SalePrice")).length = 25 := by
  decide

/-- **C1 (amended)**: for every input record batch, every record of the
Feature Engineering Transform output carries exactly the 26 declared
features plus the target `SalePrice` and nothing else: any column
outside that set is absent (`none`) in every output record, and the
output column list is, up to order, `EXPECTED_FEATURES` plus the
target, without duplicates. -/
theorem etl_output_schema (ds : List Record) (r : Record)
    (hr : r ∈ etlTransform ds) :
    (∀ c, c ∉ etlOutputColumns → r c = none) ∧
    etlOutputColumns.Perm (EXPECTED_FEATURES ++ ["SalePrice"]) ∧
    EXPECTED_FEATURES.length = 26 ∧ etlOutputColumns.Nodup := by
  refine ⟨?_, by decide, by decide, by decide⟩
  intro c hc
  have hcsel : c ∉ selectedColumns := fun h => hc (List.mem_append.mpr (Or.inl h))
  have hcder : c ∉ derivedColumns := fun h => hc (List.mem_append.mpr (Or.inr h))
  have hd1 : ¬ (c = "HouseAge") := fun h => hcder (h ▸ (by decide))
  have hd2 : ¬ (c = "RemodAge") := fun h => hcder (h ▸ (by decide))
  have hd3 : ¬ (c = "TotalSF") := fun h => hcder (h ▸ (by decide))
  have hd4 : ¬ (c = "TotalBath") := fun h => hcder (h ▸ (by decide))
  have hd5 : ¬ (c = "PricePerSqFt") := fun h => hcder (h ▸ (by decide))
  rw [etlTransform] at hr
  obtain ⟨r₁, hr₁, rfl⟩ := List.mem_map.mp hr
  rw [imputeDataset] at hr₁
  obtain ⟨r₂, hr₂, rfl⟩ := List.mem_map.mp hr₁
  obtain ⟨r₃, hr₃, rfl⟩ := List.mem_map.mp hr₂
  simp only [engineerRecord, if_neg hd1, if_neg hd2, if_neg hd3, if_neg hd4,
    if_neg hd5]
  simp [imputeCell, selectRecord, hcsel]

/-- Witness for C1 (amended): the transform of a one-record batch has no
`Id` column (a raw column the selection drops). -/
theorem etl_output_schema_witness :
    (etlTransform [fun _ => some 1]).headI "Id" = none := by
  have hmem : (etlTransform [fun _ => some 1]).headI
      ∈ etlTransform [fun _ => some 1] := by
    cases h : etlTransform [fun _ => some 1] with
    | nil =>
        exact absurd h (by simp [etlTransform, imputeDataset])
    | cons a l => simp [h, List.headI]
  exact (etl_output_schema _ _ hmem).1 "Id" (by decide)

/-! ## C8 — the five derived columns -/

/-- **C8**: on any row whose source cells are present, feature
engineering derives exactly `HouseAge = YrSold − YearBuilt`,
`RemodAge = YrSold − YearRemodAdd`,
`TotalSF = TotalBsmtSF + 1stFlrSF + 2ndFlrSF`,
`TotalBath = FullBath + 0.5·HalfBath`, and
`PricePerSqFt = SalePrice / GrLivArea`.  (`GrLivArea ≠ 0` is assumed so
that rational division coincides with the numeric division the script
performs; the hypothesis is not needed for the equations of the model
itself.) -/
theorem engineer_five_derived (r : Record) (ys yb yr tb f1 f2 fb hb sp gla : ℚ)
    (h1 : r "YrSold" = some ys) (h2 : r "YearBuilt" = some yb)
    (h3 : r "YearRemodAdd" = some yr) (h4 : r "TotalBsmtSF" = some tb)
    (h5 : r "1stFlrSF" = some f1) (h6 : r "2ndFlrSF" = some f2)
    (h7 : r "FullBath" = some fb) (h8 : r "HalfBath" = some hb)
    (h9 : r "SalePrice" = some sp) (h10 : r "GrLivArea" = some gla)
    (h0 : gla ≠ 0) :
    engineerRecord r "HouseAge" = some (ys - yb) ∧
    engineerRecord r "RemodAge" = some (ys - yr) ∧
    engineerRecord r "TotalSF" = some (tb + f1 + f2) ∧
    engineerRecord r "TotalBath" = some (fb + (1 / 2) * hb) ∧
    engineerRecord r "PricePerSqFt" = some (sp / gla) := by
  refine ⟨?_, ?_, ?_, ?_, ?_⟩ <;>
    simp [engineerRecord, h1, h2, h3, h4, h5, h6, h7, h8, h9, h10]

/-- Witness for C8 on the all-ones record. -/
theorem engineer_five_derived_witness :
    engineerRecord (fun _ => some 1) "TotalSF" = some 3 := by
  have h := engineer_five_derived (fun _ => some 1) 1 1 1 1 1 1 1 1 1 1
    rfl rfl rfl rfl rfl rfl rfl rfl rfl rfl (by norm_num)
  rw [h.2.2.1]
  norm_num

/-! ## C9 — median imputation

The claim is true whenever the column has at least one present value;
a column that is entirely missing has a NaN median, and `fillna(NaN)`
leaves every entry missing, so "no selected column contains a missing
value afterwards" fails on that edge case. -/

/-- The median of a non-empty value list exists. -/
theorem medianOf_isSome (l : List ℚ) (h : l ≠ []) : (medianOf l).isSome := by
  have h0 : ¬ (l.length = 0) := fun h0 => h (List.length_eq_zero.mp h0)
  rw [medianOf]
  simp only [h0, if_false]
  split <;> simp

/-- A column of the imputed dataset is the imputation map over the
original column. -/
theorem columnOf_imputeDataset (ds : List Record) (c : String) :
    columnOf (imputeDataset ds) c = (columnOf ds c).map (imputeCell ds c) := by
  simp [columnOf, imputeDataset]

/-- The present values of a column, through the full-column view. -/
theorem columnValues_eq_filterMap (ds : List Record) (c : String) :
    columnValues ds c = (columnOf ds c).filterMap id := by
  simp [columnValues, columnOf, List.filterMap_map]

/-- **C9 counterexample**: a selected column all of whose entries are
missing is unchanged by the imputation step — its median is NaN and
`fillna` with it fills nothing, so a missing value survives. -/
theorem impute_all_missing_counterexample :
    columnOf (imputeDataset [fun _ => none]) "LotArea" = [none] ∧
    ¬ (∀ y ∈ columnOf (imputeDataset [fun _ => none]) "LotArea", y.isSome) := by
  decide

/-- **C9 (amended)**: for every selected column that has at least one
non-missing value, imputation replaces each missing entry by the
column's median over the currently loaded dataset, keeps present entries
unchanged, and afterwards the column contains no missing value. -/
theorem imputeDataset_spec (ds : List Record) (c : String)
    (hc : c ∈ selectedColumns) (hex : ∃ v : ℚ, some v ∈ columnOf ds c) :
    (∀ i : ℕ, (columnOf ds c)[i]? = some none →
        (columnOf (imputeDataset ds) c)[i]? = some (medianOf (columnValues ds c))) ∧
    (∀ (i : ℕ) (v : ℚ), (columnOf ds c)[i]? = some (some v) →
        (columnOf (imputeDataset ds) c)[i]? = some (some v)) ∧
    (∀ y ∈ columnOf (imputeDataset ds) c, y.isSome) := by
  obtain ⟨v₀, hv₀⟩ := hex
  have hvals : columnValues ds c ≠ [] := by
    rw [columnValues_eq_filterMap]
    intro hnil
    have : v₀ ∈ (columnOf ds c).filterMap id :=
      List.mem_filterMap.mpr ⟨some v₀, hv₀, rfl⟩
    rw [hnil] at this
    exact absurd this (List.not_mem_nil v₀)
  refine ⟨?_, ?_, ?_⟩
  · intro i hi
    rw [columnOf_imputeDataset, List.getElem?_map, hi]
    simp [imputeCell, hc]
  · intro i v hi
    rw [columnOf_imputeDataset, List.getElem?_map, hi]
    simp [imputeCell]
  · intro y hy
    rw [columnOf_imputeDataset] at hy
    obtain ⟨x, _, rfl⟩ := List.mem_map.mp hy
    cases x with
    | some v => simp [imputeCell]
    | none =>
        simp only [imputeCell, hc, if_pos]
        exact medianOf_isSome _ hvals

/-- Witness for C9 at a three-row column with one missing entry: the
hole is filled with the median 2 of the present values {1, 3}. -/
theorem imputeDataset_spec_witness :
    (columnOf (imputeDataset
        [fun _ => some 1, fun _ => none, fun _ => some 3]) "LotArea")[1]?
      = some (some 2) := by
  have h := (imputeDataset_spec
      [fun _ => some 1, fun _ => none, fun _ => some 3] "LotArea"
      (by decide) ⟨1, by decide⟩).1 1 (by decide)
  rw [h]
  norm_num [medianOf, columnValues, List.insertionSort, List.orderedInsert,
    List.filterMap_cons]

/-! ## C2 — the baseline artifact-URI check

The check `if not artifact_uri.startswith("mlflow-artifacts:/"): return`
sits inside `main()`: the `return` leaves the whole function, so the
advanced (gradient-boosting) run — which comes later in `main` — never
executes when the baseline check fails.  The claim that "the process
continues so that the advanced run still executes" contradicts the
code. -/

/-- **C2 is false as stated**: with a baseline artifact URI of
`file:///mlruns/0` (not the expected scheme), the driver returns early
and the advanced run is not fitted — it does not "still execute". -/
theorem trainer_check_counterexample :
    strStartsWith "file:///mlruns/0" artifactScheme = false ∧
    (mainRuns "file:///mlruns/0" "mlflow-artifacts:/1").advancedFitted = false ∧
    (mainRuns "file:///mlruns/0" "mlflow-artifacts:/1").returnedEarly = true := by
  decide

/-- **C2 (amended)**: when the baseline run's artifact-storage URI does
not start with `mlflow-artifacts:/`, `main` aborts early without fitting
or logging anything for the baseline run, by a plain `return` rather
than an exception — but the whole driver stops there, so the advanced
run does not execute either; when the URI matches, both runs fit and
log. -/
theorem trainer_uri_check (u1 u2 : String) :
    (strStartsWith u1 artifactScheme = false →
      mainRuns u1 u2 =
        { baselineFitted := false, baselineLogged := false,
          advancedFitted := false, advancedLogged := false,
          returnedEarly := true }) ∧
    (strStartsWith u1 artifactScheme = true →
      mainRuns u1 u2 =
        { baselineFitted := true, baselineLogged := true,
          advancedFitted := true, advancedLogged := true,
          returnedEarly := false }) := by
  constructor <;> intro h <;> simp [mainRuns, h]

/-- Witness for C2 (amended) at a mismatching URI. -/
theorem trainer_uri_check_witness :
    mainRuns "file:///mlruns/0" "mlflow-artifacts:/1" =
      { baselineFitted := false, baselineLogged := false,
        advancedFitted := false, advancedLogged := false,
        returnedEarly := true } :=
  (trainer_uri_check "file:///mlruns/0" "mlflow-artifacts:/1").1 (by decide)

/-! ## C4 — the registry address environment variable

`service.py` honours `MLFLOW_TRACKING_URI` with default
`http://localhost:30000`.  `train_new_experiment.py`, however, begins
with `os.environ["MLFLOW_TRACKING_URI"] = "http://localhost:30000"`,
unconditionally overwriting whatever the caller supplied, before
`main()` reads the variable back — so the training driver never sees an
externally supplied value. -/

/-- **C4 is false as stated**: supply
`MLFLOW_TRACKING_URI=http://mlflow.example:5000` to the process; the
training driver still uses `http://localhost:30000`, not the supplied
value. -/
theorem trainer_env_counterexample :
    trainerTrackingUri (fun k =>
        if k = "MLFLOW_TRACKING_URI" then some "http://mlflow.example:5000"
        else none)
      = "http://localhost:30000" ∧
    ¬ ("http://localhost:30000" = "http://mlflow.example:5000") := by
  constructor
  · rfl
  · decide

/-- **C4 (amended)**: the prediction adapter obtains the registry
address from `MLFLOW_TRACKING_URI`, defaulting to
`http://localhost:30000` when unset; the training driver, by contrast,
overwrites that variable with `http://localhost:30000` at import time
and therefore uses `http://localhost:30000` for every externally
supplied environment. -/
theorem tracking_uri_config (env : Env) (v : String)
    (hv : env "MLFLOW_TRACKING_URI" = some v) :
    serviceTrackingUri env = v ∧
    (∀ env2 : Env, env2 "MLFLOW_TRACKING_URI" = none →
      serviceTrackingUri env2 = defaultTrackingUri) ∧
    trainerTrackingUri env = defaultTrackingUri := by
  refine ⟨?_, ?_, ?_⟩
  · rw [serviceTrackingUri, getenv, hv]
    rfl
  · intro env2 h2
    rw [serviceTrackingUri, getenv, h2]
    rfl
  · rw [trainerTrackingUri, getenv, trainerModuleInit]
    simp

/-- Witness for C4 (amended) at an explicitly supplied address. -/
theorem tracking_uri_config_witness :
    serviceTrackingUri (fun k =>
        if k = "MLFLOW_TRACKING_URI" then some "http://mlflow.example:5000"
        else none)
      = "http://mlflow.example:5000" :=
  (tracking_uri_config _ "http://mlflow.example:5000" rfl).1

/-! ## C3 — predict always returns a structured result -/

/-- **C3**: `predict` is a total function into the response shape (it
never lets a fault escape): its status is always `success` or `error`;
when, after alias resolution, some schema feature is absent, it returns
the status-error shape whose message lists exactly the missing names
(membership in the listed names is exactly "expected and absent"); and
when the model invocation raises `e`, the exception is converted into
the same status-error shape with message `str(e)`. -/
theorem predict_structured (model : List ℚ → Except String ℚ) (d : Record) :
    ((predictService model d).status = "success" ∨
      (predictService model d).status = "error") ∧
    (missingFeatures (resolveAliases d) ≠ [] →
      predictService model d =
        { status := "error",
          message := some (missingMessage (missingFeatures (resolveAliases d))),
          predicted_price := none } ∧
      (∀ f, f ∈ missingFeatures (resolveAliases d) ↔
        (f ∈ EXPECTED_FEATURES ∧ ((resolveAliases d) f).isNone))) ∧
    (∀ e, missingFeatures (resolveAliases d) = [] →
      model (EXPECTED_FEATURES.map fun f => ((resolveAliases d) f).getD 0)
          = Except.error e →
      predictService model d =
        { status := "error", message := some e, predicted_price := none }) := by
  refine ⟨?_, ?_, ?_⟩
  · by_cases hm : missingFeatures (resolveAliases d) = []
    · cases h2 : model (EXPECTED_FEATURES.map fun f => ((resolveAliases d) f).getD 0) with
      | ok p => simp [predictService, hm, h2]
      | error e => simp [predictService, hm, h2]
    · simp [predictService, hm]
  · intro hm
    refine ⟨by simp [predictService, hm], ?_⟩
    intro f
    simp [missingFeatures, List.mem_filter]
  · intro e hm h2
    simp [predictService, hm, h2]

/-- Witness for C3: on the empty request every schema feature is
missing, and the structured missing-features error is returned. -/
theorem predict_structured_witness :
    predictService (fun _ => Except.error "boom") (fun _ => none) =
      { status := "error",
        message := some (missingMessage (missingFeatures
          (resolveAliases fun _ => none))),
        predicted_price := none } :=
  ((predict_structured (fun _ => Except.error "boom") (fun _ => none)).2.1
    (by decide)).1

/-! ## C7 — legacy aliases behave like the canonical names -/

/-- **C7**: a request that carries the legacy aliases `FirstFlrSF` /
`SecondFlrSF` in place of the canonical `1stFlrSF` / `2ndFlrSF`
(and is otherwise identical) gets exactly the same response as the
canonical request: the aliases are renamed before validation. -/
theorem predict_alias_equivalence (model : List ℚ → Except String ℚ)
    (d : Record) (v1 v2 : ℚ)
    (hc1 : d "1stFlrSF" = some v1) (hc2 : d "2ndFlrSF" = some v2)
    (ha1 : d "FirstFlrSF" = none) (ha2 : d "SecondFlrSF" = none) :
    predictService model (aliasForm d) = predictService model d := by
  have key : resolveAliases (aliasForm d) = resolveAliases d := by
    have hd : resolveAliases d = d := by
      rw [resolveAliases]
      simp [ha1, ha2]
    rw [hd, resolveAliases]
    have e1 : (aliasForm d) "FirstFlrSF" = some v1 := by
      simp [aliasForm, hc1]
    rw [e1]
    simp only [Option.isSome_some, if_true]
    have e2 : renameFirst (aliasForm d) "SecondFlrSF" = some v2 := by
      simp [renameFirst, popKey, setKey, aliasForm, hc2]
    rw [e2]
    simp only [Option.isSome_some, if_true]
    funext k
    simp only [renameSecond, renameFirst, popKey, setKey, aliasForm]
    split_ifs <;> simp_all
  simp only [predictService]
  rw [key]

/-- Witness for C7: the alias form of a concrete complete request gets
the same response as the canonical form. -/
theorem predict_alias_equivalence_witness :
    predictService (fun _ => Except.ok 0)
        (aliasForm (fun k =>
          if k = "FirstFlrSF" then none
          else if k = "SecondFlrSF" then none else some 1))
      = predictService (fun _ => Except.ok 0)
        (fun k =>
          if k = "FirstFlrSF" then none
          else if k = "SecondFlrSF" then none else some 1) :=
  predict_alias_equivalence (fun _ => Except.ok 0) _ 1 1 rfl rfl rfl rfl

/-! ## C10 — the caller's mapping is not mutated

`predict` starts with `data = input_data.copy()`, so the `pop` /
assignment mutations act on a fresh dict object; in the heap model the
dict the caller's reference points to is bit-identical after the
preparation phase, and the dict `data` points to is exactly the
alias-resolved copy. -/

/-- Updating one heap cell leaves every other cell unchanged. -/
theorem heapUpdate_getD_ne (h : Heap) (r r' : ℕ) (f : Record → Record)
    (hne : r' ≠ r) :
    (heapUpdate h r f).getD r' emptyDict = h.getD r' emptyDict := by
  rw [heapUpdate, List.getD_eq_getElem?_getD,
    List.getElem?_set_ne (fun he => hne he.symm), ← List.getD_eq_getElem?_getD]

/-- Updating a live heap cell stores the updated dict there. -/
theorem heapUpdate_getD_self (h : Heap) (r : ℕ) (f : Record → Record)
    (hr : r < h.length) :
    (heapUpdate h r f).getD r emptyDict = f (h.getD r emptyDict) := by
  rw [heapUpdate, List.getD_eq_getElem?_getD, List.getElem?_set_self hr]
  rfl

/-- **C10**: for every heap and live input reference, after the
copy-and-rename preparation of `predict` the caller's dict is exactly
what it was before the call, even when alias keys were popped and
renamed — those mutations hit only the copy, which ends up holding the
alias-resolved mapping. -/
theorem predict_frame (h : Heap) (input : ℕ) (hin : input < h.length) :
    (predictPrep h input).1.getD input emptyDict = h.getD input emptyDict ∧
    (predictPrep h input).1.getD (predictPrep h input).2 emptyDict
      = resolveAliases (h.getD input emptyDict) := by
  have hne : input ≠ h.length := Nat.ne_of_lt hin
  have f1 : (h ++ [h.getD input emptyDict]).getD input emptyDict
      = h.getD input emptyDict := by
    rw [List.getD_append _ _ _ _ hin]
  have f2 : (h ++ [h.getD input emptyDict]).getD h.length emptyDict
      = h.getD input emptyDict := by
    rw [List.getD_eq_getElem?_getD, List.getElem?_append_right (le_refl _)]
    simp
  have hlive : h.length < (h ++ [h.getD input emptyDict]).length := by
    simp
  simp only [predictPrep, dictCopy]
  rw [f2]
  by_cases hc1 : ((h.getD input emptyDict) "FirstFlrSF").isSome = true
  · rw [if_pos hc1]
    have g2 : (heapUpdate (h ++ [h.getD input emptyDict]) h.length
        renameFirst).getD h.length emptyDict
        = renameFirst (h.getD input emptyDict) := by
      rw [heapUpdate_getD_self _ _ _ hlive, f2]
    rw [g2]
    by_cases hc2 : (renameFirst (h.getD input emptyDict) "SecondFlrSF").isSome = true
    · rw [if_pos hc2]
      have hlive2 : h.length < (heapUpdate (h ++ [h.getD input emptyDict])
          h.length renameFirst).length := by
        simp [heapUpdate]
      constructor
      · rw [heapUpdate_getD_ne _ _ _ _ hne, heapUpdate_getD_ne _ _ _ _ hne, f1]
      · rw [heapUpdate_getD_self _ _ _ hlive2, g2]
        simp only [resolveAliases]
        rw [if_pos hc1, if_pos hc2]
    · rw [if_neg hc2]
      constructor
      · rw [heapUpdate_getD_ne _ _ _ _ hne, f1]
      · rw [g2]
        simp only [resolveAliases]
        rw [if_pos hc1, if_neg hc2]
  · rw [if_neg hc1, f2]
    by_cases hc2 : ((h.getD input emptyDict) "SecondFlrSF").isSome = true
    · rw [if_pos hc2]
      constructor
      · rw [heapUpdate_getD_ne _ _ _ _ hne, f1]
      · rw [heapUpdate_getD_self _ _ _ hlive, f2]
        simp only [resolveAliases]
        rw [if_neg hc1, if_pos hc2]
    · rw [if_neg hc2]
      refine ⟨f1, ?_⟩
      simp only [resolveAliases]
      rw [if_neg hc1, if_neg hc2]
      exact f2

/-- Witness for C10 on a one-dict heap holding an aliased request. -/
theorem predict_frame_witness :
    (predictPrep [fun k => if k = "FirstFlrSF" then some 7 else none] 0).1.getD
        0 emptyDict
      = List.getD [fun k => if k = "FirstFlrSF" then some 7 else none] 0
          emptyDict :=
  (predict_frame [fun k => if k = "FirstFlrSF" then some 7 else none] 0
    (by decide)).1

end Housing
